import Mathlib

/-
  Verification of the surface-conform logic of `ground_conformer.py`
  (Blender add-on "Ground Conformer").

  The embedding is a shallow one over exact rational arithmetic:
  * 3-vectors are triples of rationals; the host's floating point
    tolerances become exact equalities over ℚ.
  * An object carries the state the operator reads and writes:
    `location`, `rotation_mode`, `rotation_quaternion`, `scale` and the
    eight local bounding-box corners.  Its world transform is
    `translation(location) * rotation(quaternion) * scale`, kept
    consistent with the stored rotation by the host (spec §6: the
    transform accessor reads the current world transform).
  * The host's scene ray query `scene.ray_cast` is an oracle
    `Vec3 → Vec3 → ℚ → Option RayHit` (origin, direction, distance).
  * The unbounded `while` retry loop of `cast_axis_ray` is embedded with
    explicit fuel; the outcome `none` marks a run that never left the
    loop, `some none` the loop exiting with no hit, `some (some h)` the
    loop exiting with hit `h`.
-/

/-- A 3-vector of rationals (mathutils `Vector`). -/
@[ext] structure Vec3 where
  x : ℚ
  y : ℚ
  z : ℚ
deriving DecidableEq

def Vec3.add (a b : Vec3) : Vec3 := ⟨a.x + b.x, a.y + b.y, a.z + b.z⟩

instance : Add Vec3 := ⟨Vec3.add⟩

def Vec3.sub (a b : Vec3) : Vec3 := ⟨a.x - b.x, a.y - b.y, a.z - b.z⟩

instance : Sub Vec3 := ⟨Vec3.sub⟩

def Vec3.smul (q : ℚ) (v : Vec3) : Vec3 := ⟨q * v.x, q * v.y, q * v.z⟩

instance : SMul ℚ Vec3 := ⟨Vec3.smul⟩

/-- Dot product of two vectors (mathutils `Vector.dot`). -/
def dot (a b : Vec3) : ℚ := a.x * b.x + a.y * b.y + a.z * b.z

@[simp] lemma Vec3.add_x (a b : Vec3) : (a + b).x = a.x + b.x := rfl
@[simp] lemma Vec3.add_y (a b : Vec3) : (a + b).y = a.y + b.y := rfl
@[simp] lemma Vec3.add_z (a b : Vec3) : (a + b).z = a.z + b.z := rfl
@[simp] lemma Vec3.sub_x (a b : Vec3) : (a - b).x = a.x - b.x := rfl
@[simp] lemma Vec3.sub_y (a b : Vec3) : (a - b).y = a.y - b.y := rfl
@[simp] lemma Vec3.sub_z (a b : Vec3) : (a - b).z = a.z - b.z := rfl
@[simp] lemma Vec3.smul_x (q : ℚ) (v : Vec3) : (q • v).x = q * v.x := rfl
@[simp] lemma Vec3.smul_y (q : ℚ) (v : Vec3) : (q • v).y = q * v.y := rfl
@[simp] lemma Vec3.smul_z (q : ℚ) (v : Vec3) : (q • v).z = q * v.z := rfl

/-- A quaternion (mathutils `Quaternion`), stored as `w, x, y, z`. -/
structure Quat where
  w : ℚ
  x : ℚ
  y : ℚ
  z : ℚ
deriving DecidableEq

/-- A 3×3 matrix given by its rows. -/
structure Mat3 where
  r0 : Vec3
  r1 : Vec3
  r2 : Vec3
deriving DecidableEq

def Mat3.mulVec (m : Mat3) (v : Vec3) : Vec3 := ⟨dot m.r0 v, dot m.r1 v, dot m.r2 v⟩

/-- Rotation matrix of a (unit) quaternion, the standard formula the host
uses to turn `rotation_quaternion` into the rotation part of
`matrix_world`. -/
def quatMat (q : Quat) : Mat3 :=
  ⟨⟨1 - 2 * (q.y * q.y + q.z * q.z), 2 * (q.x * q.y - q.w * q.z), 2 * (q.x * q.z + q.w * q.y)⟩,
   ⟨2 * (q.x * q.y + q.w * q.z), 1 - 2 * (q.x * q.x + q.z * q.z), 2 * (q.y * q.z - q.w * q.x)⟩,
   ⟨2 * (q.x * q.z - q.w * q.y), 2 * (q.y * q.z + q.w * q.x), 1 - 2 * (q.x * q.x + q.y * q.y)⟩⟩

/-- Componentwise scaling (the diagonal scale part of `matrix_world`). -/
def scaleVec (s v : Vec3) : Vec3 := ⟨s.x * v.x, s.y * v.y, s.z * v.z⟩

/-- `obj.type` as read by the operator: only being `'MESH'` or not matters. -/
inductive ObjType where
  | MESH
  | OTHER
deriving DecidableEq

/-- `obj.rotation_mode`: the operator only ever writes `'QUATERNION'`. -/
inductive RotMode where
  | XYZ
  | QUATERNION
  | AXIS_ANGLE
deriving DecidableEq

/-- The slice of a Blender object's state that `ground_conformer.py` reads
and writes: identity, type, transform and the eight local bounding-box
corners (`obj.bound_box`).  `matrix_world` is
`translation(location) * rotation(rotation_quaternion) * scale`. -/
structure Obj where
  id : ℕ
  name : String
  type : ObjType
  location : Vec3
  scale : Vec3
  rotation_mode : RotMode
  rotation_quaternion : Quat
  bound_box : Fin 8 → Vec3

/-- `obj.matrix_world @ c` for a local point `c`. -/
def worldPt (o : Obj) (c : Vec3) : Vec3 :=
  (quatMat o.rotation_quaternion).mulVec (scaleVec o.scale c) + o.location

/-- Minimum of eight rationals, Python's `min` over the 8-element
generator. -/
def min8 (f : Fin 8 → ℚ) : ℚ :=
  min (f 0) (min (f 1) (min (f 2) (min (f 3) (min (f 4) (min (f 5) (min (f 6) (f 7)))))))

/-- `extreme_offset(obj, normal)` from the source:
`min((co - obj.location).dot(normal) for co in corners_world)` where
`corners_world = [obj.matrix_world @ Vector(c) for c in obj.bound_box]`. -/
def extreme_offset (obj : Obj) (normal : Vec3) : ℚ :=
  min8 (fun i : Fin 8 => dot (worldPt obj (obj.bound_box i) - obj.location) normal)

/-- Minimum, over the eight world-space corners, of the dot product of
(corner − p) with n: the signed gap of the extreme corner relative to a
world point `p` along `n`. -/
def worldExtremeGap (o : Obj) (p n : Vec3) : ℚ :=
  min8 (fun i : Fin 8 => dot (worldPt o (o.bound_box i) - p) n)

/-- Some world-space bounding-box corner of `o` lies exactly at `p`. -/
def cornerAtHit (o : Obj) (p : Vec3) : Prop :=
  ∃ i : Fin 8, worldPt o (o.bound_box i) = p

instance (o : Obj) (p : Vec3) : Decidable (cornerAtHit o p) :=
  inferInstanceAs (Decidable (∃ i : Fin 8, worldPt o (o.bound_box i) = p))

/-- One result of `scene.ray_cast`: hit location, hit normal, and the
identity of the struck object. -/
structure RayHit where
  loc : Vec3
  normal : Vec3
  hitId : ℕ
deriving DecidableEq

/-- The host's scene intersection query, `scene.ray_cast(depsgraph,
origin, direction, distance)`, as an oracle: `none` is "no hit". -/
def Scene : Type := Vec3 → Vec3 → ℚ → Option RayHit

/-- The ε-shift of the retry loop: `1e-4` world units. -/
def eps : ℚ := 1 / 10000

/-- `Vector.normalized` from the host math library.  The operator only
ever passes the six unit axis vectors, on which normalization is the
identity; a general rational vector has an irrational norm, so the model
takes the direction to be already normalized (theorems about directions
carry a unit-length hypothesis). -/
def normalized (d : Vec3) : Vec3 := d

/-- The `while hit and hit_obj == obj` retry loop of `cast_axis_ray`,
with explicit fuel.  `none` = the fuel ran out while the loop guard still
held (the source loop would still be running); `some none` = loop left
with no hit; `some (some h)` = loop left with a hit on another object. -/
def castFuel (scene : Scene) (obj : Obj) (direction : Vec3) (ray_max : ℚ) :
    ℕ → Option RayHit → Option (Option RayHit)
  | 0, none => some none
  | _ + 1, none => some none
  | 0, some h => if h.hitId = obj.id then none else some (some h)
  | n + 1, some h =>
      if h.hitId = obj.id then
        castFuel scene obj direction ray_max n
          (scene (h.loc + eps • direction) direction (ray_max * 2))
      else some (some h)

/-- `cast_axis_ray(scene, depsgraph, obj, direction, ray_max)` from the
source: normalize the direction, start `ray_max` behind the object, query
with distance `ray_max * 2`, then run the self-hit retry loop. -/
def cast_axis_ray (scene : Scene) (obj : Obj) (direction : Vec3) (ray_max : ℚ)
    (fuel : ℕ) : Option (Option RayHit) :=
  let direction := normalized direction
  let start := obj.location - ray_max • direction
  castFuel scene obj direction ray_max fuel (scene start direction (ray_max * 2))

/-- Whether a loop result is a hit on the casting object itself. -/
def isSelfHit (obj : Obj) : Option RayHit → Bool
  | some h => decide (h.hitId = obj.id)
  | none => false

/-- The retry loop of `cast_axis_ray` terminates on this input: some
finite fuel suffices for the loop to exit. -/
def castTerminates (scene : Scene) (obj : Obj) (direction : Vec3) (ray_max : ℚ) : Prop :=
  ∃ fuel, cast_axis_ray scene obj direction ray_max fuel ≠ none

/-- The `ray_direction` enum of the operator. -/
inductive RayDirection where
  | NEG_Z
  | POS_Z
  | NEG_X
  | POS_X
  | NEG_Y
  | POS_Y
deriving DecidableEq

/-- `_DIR_MAP` of the operator: enum value to unit vector. -/
def dirMap : RayDirection → Vec3
  | RayDirection.NEG_Z => ⟨0, 0, -1⟩
  | RayDirection.POS_Z => ⟨0, 0, 1⟩
  | RayDirection.NEG_X => ⟨-1, 0, 0⟩
  | RayDirection.POS_X => ⟨1, 0, 0⟩
  | RayDirection.NEG_Y => ⟨0, -1, 0⟩
  | RayDirection.POS_Y => ⟨0, 1, 0⟩

/-- The operator's properties: `ray_max`, `align_rotation`, `ray_direction`. -/
structure ConformProps where
  ray_max : ℚ
  align_rotation : Bool
  ray_direction : RayDirection

/-- The per-object INFO report `f"No surface hit for {obj.name}"`. -/
def noHitMessage (o : Obj) : String := "No surface hit for " ++ o.name

/-- The rotation-alignment branch of `execute`: when requested, set
`rotation_mode = 'QUATERNION'` and `rotation_quaternion =
normal.to_track_quat('Z', 'Y')`; `tq` is the host's `to_track_quat('Z', 'Y')`. -/
def alignObj (tq : Vec3 → Quat) (props : ConformProps) (o : Obj) (n : Vec3) : Obj :=
  if props.align_rotation then
    { o with rotation_mode := RotMode.QUATERNION, rotation_quaternion := tq n }
  else o

/-- One iteration of the `for obj in ctx.selected_objects` loop of
`OBJECT_OT_ground_conform.execute`: skip non-meshes, ray cast, report and
leave untouched on no hit, else optionally align and then translate so the
extreme corner meets the hit point.  The result pairs the object's new
state with the optional INFO report; `none` propagates a ray-cast run that
never left its retry loop. -/
def conformStep (scene : Scene) (tq : Vec3 → Quat) (props : ConformProps) (fuel : ℕ)
    (o : Obj) : Option (Obj × Option String) :=
  if o.type = ObjType.MESH then
    match cast_axis_ray scene o (dirMap props.ray_direction) props.ray_max fuel with
    | none => none
    | some none => some (o, some (noHitMessage o))
    | some (some h) =>
        let oA := alignObj tq props o h.normal
        let offset := extreme_offset oA h.normal
        some ({ oA with location := h.loc - offset • h.normal }, none)
  else some (o, none)

/-- `OBJECT_OT_ground_conform.execute` over the list of selected objects:
each object is processed in order by `conformStep`; the final object
states and the INFO reports are collected.  The scene oracle is fixed for
the whole run (the depsgraph is evaluated once, before the loop). -/
def execute (scene : Scene) (tq : Vec3 → Quat) (props : ConformProps) (fuel : ℕ) :
    List Obj → Option (List Obj × List String)
  | [] => some ([], [])
  | o :: rest => do
      let (o1, rep) ← conformStep scene tq props fuel o
      let (os, reps) ← execute scene tq props fuel rest
      some (o1 :: os, rep.toList ++ reps)

/-- The new location recorded by one loop iteration, when it produced one. -/
def stepLocation (r : Option (Obj × Option String)) : Option Vec3 :=
  r.map (fun p => p.1.location)

/-- The new rotation mode recorded by one loop iteration. -/
def stepRotMode (r : Option (Obj × Option String)) : Option RotMode :=
  r.map (fun p => p.1.rotation_mode)

/-- The extreme gap, relative to `p` along `n`, of the object recorded by
one loop iteration. -/
def stepGap (p n : Vec3) (r : Option (Obj × Option String)) : Option ℚ :=
  r.map (fun q => worldExtremeGap q.1 p n)

/-- The identity quaternion. -/
def qId : Quat := ⟨1, 0, 0, 0⟩

/-- A stand-in for the host's `to_track_quat('Z', 'Y')`: the claims under
check never depend on its value, only on where its result is written. -/
def tq0 : Vec3 → Quat := fun _ => qId

/-- The world up axis. -/
def vZ : Vec3 := ⟨0, 0, 1⟩

/-- The downward cast direction `_DIR_MAP["NEG_Z"]`. -/
def vNegZ : Vec3 := ⟨0, 0, -1⟩

/-- Unit scale. -/
def one1 : Vec3 := ⟨1, 1, 1⟩

/-- The eight local corners of a unit cube centered at its origin, in
Blender's `bound_box` order. -/
def cubeCorner : Fin 8 → Vec3
  | 0 => ⟨-(1/2), -(1/2), -(1/2)⟩
  | 1 => ⟨-(1/2), -(1/2), 1/2⟩
  | 2 => ⟨-(1/2), 1/2, 1/2⟩
  | 3 => ⟨-(1/2), 1/2, -(1/2)⟩
  | 4 => ⟨1/2, -(1/2), -(1/2)⟩
  | 5 => ⟨1/2, -(1/2), 1/2⟩
  | 6 => ⟨1/2, 1/2, 1/2⟩
  | 7 => ⟨1/2, 1/2, -(1/2)⟩

/-- The spec's example object: a unit cube, own origin at world (0,0,5). -/
def demoCube : Obj :=
  ⟨0, "Cube", ObjType.MESH, ⟨0, 0, 5⟩, one1, RotMode.XYZ, qId, cubeCorner⟩

/-- Hit on the flat floor `z = 0`: point (0,0,0), normal (0,0,1), object 1. -/
def floorHit : RayHit := ⟨⟨0, 0, 0⟩, ⟨0, 0, 1⟩, 1⟩

/-- A scene whose ray query always reports the flat-floor hit (the floor
is object 1; the caster never occludes the ray). -/
def flatScene : Scene := fun _ _ _ => some floorHit

/-- Operator properties of the spec's example: ray length 1000, no
alignment, cast downward. -/
def props1000 : ConformProps := ⟨1000, false, RayDirection.NEG_Z⟩

/-- Same but with rotation alignment requested. -/
def propsAlign : ConformProps := ⟨1000, true, RayDirection.NEG_Z⟩

/-- The spec's expected result object: the cube moved to (0, 0, 1/2). -/
def demoCubeMoved : Obj := { demoCube with location := ⟨0, 0, 1/2⟩ }

/-- A scene with no geometry at all: every ray query misses. -/
def noneScene : Scene := fun _ _ _ => none

/-- A non-mesh object (a camera) in the selected set. -/
def cameraObj : Obj :=
  ⟨3, "Camera", ObjType.OTHER, ⟨0, 0, 0⟩, one1, RotMode.XYZ, qId, cubeCorner⟩

/-- A caster whose own geometry occludes its probe ray. -/
def selfObj : Obj :=
  ⟨0, "Caster", ObjType.MESH, ⟨0, 0, 0⟩, one1, RotMode.XYZ, qId, cubeCorner⟩

/-- The caster's own surface struck at (0,0,2). -/
def selfHit0 : RayHit := ⟨⟨0, 0, 2⟩, vZ, 0⟩

/-- A second object's surface 5 units further along the downward ray. -/
def belowHit : RayHit := ⟨⟨0, 0, -3⟩, vZ, 1⟩

/-- A scene in which a downward ray started above z = 2 first strikes the
caster itself at (0,0,2), and a ray started at or below z = 2 strikes
object 1 at (0,0,−3). -/
def twoHitScene : Scene := fun s _ _ =>
  if 2 < s.z then some selfHit0 else some belowHit

/-- An object whose degenerate geometry reports a self-hit at every query
origin (the spec's "overlapping duplicate geometry" arrangement). -/
def stickyObj : Obj :=
  ⟨0, "Sticky", ObjType.MESH, ⟨0, 0, 0⟩, one1, RotMode.XYZ, qId, cubeCorner⟩

/-- The scene oracle for that arrangement: every query reports a hit on
the casting object itself, exactly at the query origin. -/
def stickyScene : Scene := fun s _ _ => some ⟨s, vZ, 0⟩

/-- A degenerate (zero-volume) bounding box: all eight corners at the
local point (0,0,−1). -/
def degBox : Fin 8 → Vec3 := fun _ => ⟨0, 0, -1⟩

/-- An object resting, corner exactly on a tilted surface: origin at
(0,0,1), its single bounding corner at world (0,0,0). -/
def restObj : Obj :=
  ⟨0, "Prop", ObjType.MESH, ⟨0, 0, 1⟩, one1, RotMode.QUATERNION, qId, degBox⟩

/-- Unit normal of a surface tilted relative to the vertical axis. -/
def slopeNormal : Vec3 := ⟨3/5, 0, 4/5⟩

/-- Hit of the downward probe on the tilted surface (object 1) at the
world origin. -/
def slopeHit : RayHit := ⟨⟨0, 0, 0⟩, slopeNormal, 1⟩

/-- The tilted-surface scene. -/
def slopeScene : Scene := fun _ _ _ => some slopeHit

/-- Operator properties: ray length 10, no alignment, cast downward. -/
def props10 : ConformProps := ⟨10, false, RayDirection.NEG_Z⟩

/-- A unit cube resting on the flat floor: origin at (0,0,1/2), extreme
corners on z = 0. -/
def restCube : Obj :=
  ⟨2, "RestCube", ObjType.MESH, ⟨0, 0, 1/2⟩, one1, RotMode.XYZ, qId, cubeCorner⟩

/- ───────────────────────── helper lemmas ───────────────────────── -/

lemma min8_le (f : Fin 8 → ℚ) (i : Fin 8) : min8 f ≤ f i := by
  fin_cases i <;> simp [min8, min_le_iff]

lemma min8_attained (f : Fin 8 → ℚ) : ∃ i, min8 f = f i := by
  unfold min8
  rcases min_choice (f 0)
      (min (f 1) (min (f 2) (min (f 3) (min (f 4) (min (f 5) (min (f 6) (f 7))))))) with h | h
  · exact ⟨0, h⟩
  rw [h]; clear h
  rcases min_choice (f 1)
      (min (f 2) (min (f 3) (min (f 4) (min (f 5) (min (f 6) (f 7)))))) with h | h
  · exact ⟨1, h⟩
  rw [h]; clear h
  rcases min_choice (f 2) (min (f 3) (min (f 4) (min (f 5) (min (f 6) (f 7))))) with h | h
  · exact ⟨2, h⟩
  rw [h]; clear h
  rcases min_choice (f 3) (min (f 4) (min (f 5) (min (f 6) (f 7)))) with h | h
  · exact ⟨3, h⟩
  rw [h]; clear h
  rcases min_choice (f 4) (min (f 5) (min (f 6) (f 7))) with h | h
  · exact ⟨4, h⟩
  rw [h]; clear h
  rcases min_choice (f 5) (min (f 6) (f 7)) with h | h
  · exact ⟨5, h⟩
  rw [h]; clear h
  rcases min_choice (f 6) (f 7) with h | h
  · exact ⟨6, h⟩
  · exact ⟨7, h⟩

lemma min8_add_const (f : Fin 8 → ℚ) (c : ℚ) :
    min8 (fun i => f i + c) = min8 f + c := by
  simp only [min8, min_add_add_right]

lemma dot_sub_split (a b c n : Vec3) :
    dot (a - c) n = dot (a - b) n + dot (b - c) n := by
  simp [dot]; ring

lemma worldPt_sub_location (o : Obj) (c : Vec3) :
    worldPt o c - o.location = (quatMat o.rotation_quaternion).mulVec (scaleVec o.scale c) := by
  apply Vec3.ext <;> simp [worldPt]

/-- `extreme_offset` does not depend on the object's location: the
location is added by the world transform and subtracted right back. -/
lemma extreme_offset_eq (o : Obj) (n : Vec3) :
    extreme_offset o n
      = min8 (fun i => dot ((quatMat o.rotation_quaternion).mulVec
          (scaleVec o.scale (o.bound_box i))) n) :=
  congrArg min8 (funext fun i => by rw [worldPt_sub_location])

/-- Shifting the reference point of the extreme gap shifts the minimum by
the corresponding dot product. -/
lemma worldExtremeGap_eq (o : Obj) (p n : Vec3) :
    worldExtremeGap o p n = extreme_offset o n + dot (o.location - p) n := by
  unfold worldExtremeGap extreme_offset
  rw [← min8_add_const]
  exact congrArg min8 (funext fun i =>
    dot_sub_split (worldPt o (o.bound_box i)) o.location p n)

lemma castFuel_none (scene : Scene) (obj : Obj) (d : Vec3) (rm : ℚ) (n : ℕ) :
    castFuel scene obj d rm n none = some none := by
  cases n <;> simp [castFuel]

lemma castFuel_notSelf (scene : Scene) (obj : Obj) (d : Vec3) (rm : ℚ) (n : ℕ)
    (h : RayHit) (hne : ¬ h.hitId = obj.id) :
    castFuel scene obj d rm n (some h) = some (some h) := by
  cases n <;> simp [castFuel, hne]

lemma castFuel_selfStep (scene : Scene) (obj : Obj) (d : Vec3) (rm : ℚ) (n : ℕ)
    (h : RayHit) (hid : h.hitId = obj.id) :
    castFuel scene obj d rm (n + 1) (some h)
      = castFuel scene obj d rm n (scene (h.loc + eps • d) d (rm * 2)) := by
  simp [castFuel, hid]

lemma castFuel_not_self (scene : Scene) (obj : Obj) (d : Vec3) (rm : ℚ) :
    ∀ (n : ℕ) (r : Option RayHit) (res : Option RayHit),
      castFuel scene obj d rm n r = some res → isSelfHit obj res = false := by
  intro n
  induction n with
  | zero =>
      intro r res h
      cases r with
      | none =>
          rw [castFuel_none] at h
          cases h; rfl
      | some hh =>
          by_cases hid : hh.hitId = obj.id
          · simp [castFuel, hid] at h
          · rw [castFuel_notSelf _ _ _ _ _ _ hid] at h
            cases h; simp [isSelfHit, hid]
  | succ k ih =>
      intro r res h
      cases r with
      | none =>
          rw [castFuel_none] at h
          cases h; rfl
      | some hh =>
          by_cases hid : hh.hitId = obj.id
          · rw [castFuel_selfStep _ _ _ _ _ _ hid] at h
            exact ih _ _ h
          · rw [castFuel_notSelf _ _ _ _ _ _ hid] at h
            cases h; simp [isSelfHit, hid]

lemma conformStep_skip (scene : Scene) (tq : Vec3 → Quat) (props : ConformProps)
    (fuel : ℕ) (o : Obj) (h : ¬ o.type = ObjType.MESH) :
    conformStep scene tq props fuel o = some (o, none) := by
  simp [conformStep, h]

lemma conformStep_noHit (scene : Scene) (tq : Vec3 → Quat) (props : ConformProps)
    (fuel : ℕ) (o : Obj) (hm : o.type = ObjType.MESH)
    (hc : cast_axis_ray scene o (dirMap props.ray_direction) props.ray_max fuel = some none) :
    conformStep scene tq props fuel o = some (o, some (noHitMessage o)) := by
  simp [conformStep, hm, hc]

lemma conformStep_hit (scene : Scene) (tq : Vec3 → Quat) (props : ConformProps)
    (fuel : ℕ) (o : Obj) (h : RayHit) (hm : o.type = ObjType.MESH)
    (hc : cast_axis_ray scene o (dirMap props.ray_direction) props.ray_max fuel
            = some (some h)) :
    conformStep scene tq props fuel o
      = some ({ alignObj tq props o h.normal with
                  location := h.loc
                    - extreme_offset (alignObj tq props o h.normal) h.normal • h.normal },
              none) := by
  simp [conformStep, hm, hc]

lemma execute_elems (scene : Scene) (tq : Vec3 → Quat) (props : ConformProps) (fuel : ℕ) :
    ∀ (sel os : List Obj) (reps : List String),
      execute scene tq props fuel sel = some (os, reps) →
      os.length = sel.length ∧
      ∀ (i : ℕ) (hi : i < sel.length) (hj : i < os.length),
        ∃ rep, conformStep scene tq props fuel (sel.get ⟨i, hi⟩)
          = some (os.get ⟨i, hj⟩, rep) := by
  intro sel
  induction sel with
  | nil =>
      intro os reps h
      simp [execute] at h
      obtain ⟨h1, h2⟩ := h
      subst h1
      refine ⟨rfl, ?_⟩
      intro i hi hj
      exact absurd hi (by simp)
  | cons o rest ih =>
      intro os reps h
      cases hstep : conformStep scene tq props fuel o with
      | none => simp [execute, hstep] at h
      | some pr =>
          obtain ⟨o1, rep⟩ := pr
          cases hrest : execute scene tq props fuel rest with
          | none => simp [execute, hstep, hrest] at h
          | some pr2 =>
              obtain ⟨os', reps'⟩ := pr2
              simp [execute, hstep, hrest] at h
              obtain ⟨h1, h2⟩ := h
              subst h1
              obtain ⟨hlen, hidx⟩ := ih os' reps' hrest
              refine ⟨by simp [hlen], ?_⟩
              intro i hi hj
              cases i with
              | zero => exact ⟨rep, by simpa using hstep⟩
              | succ k =>
                  have hk : k < rest.length := by simpa using hi
                  have hk2 : k < os'.length := by simpa using hj
                  obtain ⟨r, hr⟩ := hidx k hk hk2
                  exact ⟨r, by simpa using hr⟩

/-- In the always-self-hit scene, the retry loop never exits, whatever
the fuel: every re-query reports a self-hit at the advanced origin. -/
lemma stickyScene_stuck :
    ∀ (n : ℕ) (s : Vec3),
      castFuel stickyScene stickyObj vNegZ 10 n (some ⟨s, vZ, 0⟩) = none := by
  intro n
  induction n with
  | zero => intro s; simp [castFuel, stickyObj]
  | succ k ih =>
      intro s
      rw [castFuel_selfStep _ _ _ _ _ _ rfl]
      exact ih _

/- ───────────────────────── claims ───────────────────────── -/

/-- C1: `extreme_offset(object, normal)` is the minimum over the eight
world-transformed bounding-box corners of the dot product of
(corner − object origin) with the normal: it is ≤ that dot product for
every corner and equal to it for at least one corner. -/
theorem extreme_offset_le_and_attained (o : Obj) (n : Vec3) :
    (∀ i : Fin 8, extreme_offset o n ≤ dot (worldPt o (o.bound_box i) - o.location) n)
    ∧ ∃ i : Fin 8, extreme_offset o n = dot (worldPt o (o.bound_box i) - o.location) n :=
  ⟨fun i => min8_le _ i, min8_attained _⟩

/-- C4: the directional ray cast issues its first scene query from the
object's origin offset behind the object by `ray_max` along the negative
direction, with traversal length `ray_max * 2`; and on a self-hit it
re-queries from the self-hit point advanced by the fixed 1e-4 epsilon
along the direction, with the same traversal length. -/
theorem cast_axis_ray_query_shape (scene : Scene) (obj : Obj) (d : Vec3) (ray_max : ℚ)
    (fuel : ℕ) (_hd : dot d d = 1) :
    cast_axis_ray scene obj d ray_max fuel
      = castFuel scene obj d ray_max fuel
          (scene (obj.location - ray_max • d) d (ray_max * 2))
    ∧ ∀ (n : ℕ) (h : RayHit), h.hitId = obj.id →
        castFuel scene obj d ray_max (n + 1) (some h)
          = castFuel scene obj d ray_max n
              (scene (h.loc + (1 / 10000 : ℚ) • d) d (ray_max * 2)) :=
  ⟨rfl, fun n h hid => castFuel_selfStep scene obj d ray_max n h hid⟩

/-- Witness for C4 at a concrete empty scene and the unit downward
direction. -/
theorem cast_axis_ray_query_shape_witness :
    cast_axis_ray noneScene demoCube vNegZ 1000 2
      = castFuel noneScene demoCube vNegZ 1000 2
          (noneScene (demoCube.location - (1000 : ℚ) • vNegZ) vNegZ (1000 * 2)) :=
  (cast_axis_ray_query_shape noneScene demoCube vNegZ 1000 2
    (by norm_num [dot, vNegZ])).1

/-- C5: when the first intersection is the casting object itself, the
directional ray cast returns the result of the epsilon-advanced re-query:
a hit on another object is returned as the result, and if the re-query
finds nothing the cast returns "no hit". -/
theorem cast_axis_ray_self_hit_suppression (scene : Scene) (obj : Obj) (d : Vec3)
    (ray_max : ℚ) (h0 : RayHit) (n : ℕ)
    (hq0 : scene (obj.location - ray_max • d) d (ray_max * 2) = some h0)
    (hself : h0.hitId = obj.id) :
    (∀ h1 : RayHit, scene (h0.loc + eps • d) d (ray_max * 2) = some h1 →
        ¬ h1.hitId = obj.id →
        cast_axis_ray scene obj d ray_max (n + 1) = some (some h1))
    ∧ (scene (h0.loc + eps • d) d (ray_max * 2) = none →
        cast_axis_ray scene obj d ray_max (n + 1) = some none) := by
  constructor
  · intro h1 hq1 hne
    show castFuel scene obj d ray_max (n + 1)
        (scene (obj.location - ray_max • d) d (ray_max * 2)) = some (some h1)
    rw [hq0, castFuel_selfStep _ _ _ _ _ _ hself, hq1,
      castFuel_notSelf _ _ _ _ _ _ hne]
  · intro hq1
    show castFuel scene obj d ray_max (n + 1)
        (scene (obj.location - ray_max • d) d (ray_max * 2)) = some none
    rw [hq0, castFuel_selfStep _ _ _ _ _ _ hself, hq1, castFuel_none]

/-- Witness for C5: in `twoHitScene` the first hit is the caster itself at
(0,0,2) and the second object's surface lies 5 units further at (0,0,−3);
the cast returns the second object's hit. -/
theorem cast_axis_ray_self_hit_suppression_witness :
    cast_axis_ray twoHitScene selfObj vNegZ 10 1 = some (some belowHit) := by
  have hq0 : twoHitScene (selfObj.location - (10 : ℚ) • vNegZ) vNegZ (10 * 2)
      = some selfHit0 := by
    norm_num [twoHitScene, selfObj, vNegZ]
  have h := cast_axis_ray_self_hit_suppression twoHitScene selfObj vNegZ 10 selfHit0 0
    hq0 rfl
  apply h.1 belowHit
  · norm_num [twoHitScene, selfHit0, vNegZ, eps]
  · decide

/-- C6 counterexample: the retry loop does not terminate for every scene
query behavior.  In `stickyScene` every query, from every origin, reports
a self-hit at that origin; the epsilon advance moves the origin forward
each time, yet no amount of fuel makes the loop exit. -/
theorem cast_loop_nonterminating :
    ¬ castTerminates stickyScene stickyObj vNegZ 10 := by
  rintro ⟨fuel, hf⟩
  apply hf
  show castFuel stickyScene stickyObj vNegZ 10 fuel
      (stickyScene (stickyObj.location - (10 : ℚ) • vNegZ) vNegZ (10 * 2)) = none
  exact stickyScene_stuck fuel _

/-- C6 amended: termination is not guaranteed for an arbitrary scene
query behavior (see the counterexample), but whenever the retry loop does
exit, it exits with either a hit on a different object or no hit — never
with a self-hit. -/
theorem cast_axis_ray_result_not_self_hit (scene : Scene) (obj : Obj) (d : Vec3)
    (ray_max : ℚ) (fuel : ℕ) (r : Option RayHit)
    (h : cast_axis_ray scene obj d ray_max fuel = some r) :
    isSelfHit obj r = false :=
  castFuel_not_self scene obj d ray_max fuel
    (scene (obj.location - ray_max • d) d (ray_max * 2)) r h

/-- Witness for the amended C6 at a concrete terminating cast. -/
theorem cast_axis_ray_result_not_self_hit_witness :
    isSelfHit demoCube (some floorHit) = false :=
  cast_axis_ray_result_not_self_hit flatScene demoCube vNegZ 1000 1 (some floorHit) rfl

/-- C7: a selected mesh object whose cast finds no surface gets a
per-object informational message, is left with all of its state
unchanged, and the operation continues with the remaining objects in
order. -/
theorem conform_no_hit_nonfatal (scene : Scene) (tq : Vec3 → Quat) (props : ConformProps)
    (fuel : ℕ) (o : Obj) (rest : List Obj)
    (hm : o.type = ObjType.MESH)
    (hc : cast_axis_ray scene o (dirMap props.ray_direction) props.ray_max fuel
            = some none) :
    conformStep scene tq props fuel o = some (o, some (noHitMessage o))
    ∧ execute scene tq props fuel (o :: rest)
        = (execute scene tq props fuel rest).map
            (fun p => (o :: p.1, noHitMessage o :: p.2)) := by
  have h1 := conformStep_noHit scene tq props fuel o hm hc
  refine ⟨h1, ?_⟩
  cases hrest : execute scene tq props fuel rest with
  | none => simp [execute, h1, hrest]
  | some pr =>
      obtain ⟨os, reps⟩ := pr
      simp [execute, h1, hrest]

/-- Witness for C7: an empty scene, a one-object selection. -/
theorem conform_no_hit_nonfatal_witness :
    execute noneScene tq0 props1000 1 [demoCube]
      = some ([demoCube], [noHitMessage demoCube]) := by
  have h := conform_no_hit_nonfatal noneScene tq0 props1000 1 demoCube [] rfl rfl
  rw [h.2]
  rfl

/-- C8: the per-invocation side effects of the conform operation.
(1) Non-mesh objects in the selected set are returned untouched with no
report (silently skipped).  (2) A mesh object with no hit is returned
untouched (position and rotation included) with only a report.  (3) A
mesh object with a hit gets exactly its location written (to
hit − offset·normal), its rotation written only when alignment is
requested, and all other state preserved.  (4) The whole run transforms
each selected object by exactly this per-object step and produces
nothing else — no object outside the selected set appears or is
touched. -/
theorem conform_side_effects (scene : Scene) (tq : Vec3 → Quat) (props : ConformProps)
    (fuel : ℕ) :
    (∀ o : Obj, ¬ o.type = ObjType.MESH →
        conformStep scene tq props fuel o = some (o, none))
    ∧ (∀ o : Obj, o.type = ObjType.MESH →
        cast_axis_ray scene o (dirMap props.ray_direction) props.ray_max fuel = some none →
        conformStep scene tq props fuel o = some (o, some (noHitMessage o)))
    ∧ (∀ (o : Obj) (h : RayHit), o.type = ObjType.MESH →
        cast_axis_ray scene o (dirMap props.ray_direction) props.ray_max fuel
            = some (some h) →
        ∃ o', conformStep scene tq props fuel o = some (o', none)
          ∧ o'.location
              = h.loc - extreme_offset (alignObj tq props o h.normal) h.normal • h.normal
          ∧ (props.align_rotation = false →
              o'.rotation_mode = o.rotation_mode
                ∧ o'.rotation_quaternion = o.rotation_quaternion)
          ∧ (props.align_rotation = true →
              o'.rotation_mode = RotMode.QUATERNION
                ∧ o'.rotation_quaternion = tq h.normal)
          ∧ o'.id = o.id ∧ o'.name = o.name ∧ o'.type = o.type ∧ o'.scale = o.scale
          ∧ o'.bound_box = o.bound_box)
    ∧ (∀ (sel os : List Obj) (reps : List String),
        execute scene tq props fuel sel = some (os, reps) →
        os.length = sel.length ∧
        ∀ (i : ℕ) (hi : i < sel.length) (hj : i < os.length),
          ∃ rep, conformStep scene tq props fuel (sel.get ⟨i, hi⟩)
            = some (os.get ⟨i, hj⟩, rep)) := by
  refine ⟨fun o h => conformStep_skip scene tq props fuel o h,
          fun o hm hc => conformStep_noHit scene tq props fuel o hm hc,
          ?_, execute_elems scene tq props fuel⟩
  intro o h hm hc
  refine ⟨_, conformStep_hit scene tq props fuel o h hm hc,
    rfl, ?_, ?_, ?_, ?_, ?_, ?_, ?_⟩
  · intro hb; simp [alignObj, hb]
  · intro hb; simp [alignObj, hb]
  · by_cases hb : props.align_rotation <;> simp [alignObj, hb]
  · by_cases hb : props.align_rotation <;> simp [alignObj, hb]
  · by_cases hb : props.align_rotation <;> simp [alignObj, hb]
  · by_cases hb : props.align_rotation <;> simp [alignObj, hb]
  · by_cases hb : props.align_rotation <;> simp [alignObj, hb]

/-- Witness for C8: a skipped camera, a missed mesh, and a hit mesh whose
location lands at (0, 0, 1/2). -/
theorem conform_side_effects_witness :
    conformStep noneScene tq0 props1000 1 cameraObj = some (cameraObj, none)
    ∧ conformStep noneScene tq0 props1000 1 demoCube
        = some (demoCube, some (noHitMessage demoCube))
    ∧ stepLocation (conformStep flatScene tq0 props1000 3 demoCube)
        = some (Vec3.mk 0 0 (1/2)) := by
  refine ⟨(conform_side_effects noneScene tq0 props1000 1).1 cameraObj (by simp [cameraObj]),
          (conform_side_effects noneScene tq0 props1000 1).2.1 demoCube rfl rfl, ?_⟩
  obtain ⟨o', ho, hl, -⟩ :=
    (conform_side_effects flatScene tq0 props1000 3).2.2.1 demoCube floorHit rfl rfl
  rw [ho]
  show some o'.location = some (Vec3.mk 0 0 (1/2))
  rw [hl]
  norm_num [alignObj, props1000, floorHit, extreme_offset, min8, worldPt, dot, demoCube,
    cubeCorner, qId, one1, quatMat, scaleVec, Mat3.mulVec, min_def, Vec3.ext_iff]

/-- C3: on a hit, the conform operation sets the object's position to
hit point − normal × offset, where offset is the extreme offset computed
with the hit normal (on the object as it stands after the optional
alignment). -/
theorem conform_new_location_eq (scene : Scene) (tq : Vec3 → Quat) (props : ConformProps)
    (fuel : ℕ) (o : Obj) (h : RayHit)
    (hm : o.type = ObjType.MESH)
    (hc : cast_axis_ray scene o (dirMap props.ray_direction) props.ray_max fuel
            = some (some h)) :
    conformStep scene tq props fuel o
      = some ({ alignObj tq props o h.normal with
                  location := h.loc
                    - extreme_offset (alignObj tq props o h.normal) h.normal • h.normal },
              none) :=
  conformStep_hit scene tq props fuel o h hm hc

/-- Witness for C3, the spec's example scenario: unit cube at (0,0,5),
flat floor at z = 0 with normal (0,0,1), downward probe, max distance
1000, no alignment — the extreme offset is −1/2 and the new position is
(0, 0, 1/2). -/
theorem conform_new_location_eq_witness :
    extreme_offset demoCube vZ = -(1/2 : ℚ)
    ∧ stepLocation (conformStep flatScene tq0 props1000 3 demoCube)
        = some (Vec3.mk 0 0 (1/2)) := by
  have h := conform_new_location_eq flatScene tq0 props1000 3 demoCube floorHit rfl rfl
  constructor
  · norm_num [extreme_offset, min8, worldPt, dot, demoCube, vZ, cubeCorner, qId, one1,
      quatMat, scaleVec, Mat3.mulVec, min_def]
  · rw [h]
    norm_num [stepLocation, alignObj, props1000, floorHit, extreme_offset, min8, worldPt,
      dot, demoCube, cubeCorner, qId, one1, quatMat, scaleVec, Mat3.mulVec, min_def,
      Vec3.ext_iff]

/-- C2 counterexample: after the spec's own example conform (unit cube
dropped onto the flat floor, hit point (0,0,0)), no bounding-box corner of
the moved cube lies at the hit point — the extreme corners land at
(±1/2, ±1/2, 0), not at (0,0,0).  The claim's "lies exactly at the hit
point" is false; only the projection onto the normal vanishes. -/
theorem conform_corner_not_at_hit_point :
    conformStep flatScene tq0 props1000 3 demoCube = some (demoCubeMoved, none)
    ∧ ¬ cornerAtHit demoCubeMoved floorHit.loc := by
  constructor
  · rw [conformStep_hit flatScene tq0 props1000 3 demoCube floorHit rfl rfl]
    have hval : floorHit.loc
        - extreme_offset (alignObj tq0 props1000 demoCube floorHit.normal) floorHit.normal
          • floorHit.normal = Vec3.mk 0 0 (1/2) := by
      norm_num [alignObj, props1000, floorHit, extreme_offset, min8, worldPt, dot,
        demoCube, cubeCorner, qId, one1, quatMat, scaleVec, Mat3.mulVec, min_def,
        Vec3.ext_iff]
    rw [hval]
    rfl
  · rintro ⟨i, hi⟩
    fin_cases i <;>
      simp [worldPt, demoCubeMoved, demoCube, cubeCorner, qId, one1, quatMat, scaleVec,
        Mat3.mulVec, dot, floorHit, Vec3.ext_iff] at hi

/-- C2 amended: after a successful conform (alignment requested or not),
the extreme bounding-box corner lies on the plane through the hit point
orthogonal to the hit normal: the minimum over the corners of the dot
product of (corner − hit point) with the unit normal is exactly zero (so
the extreme corner's projection onto the normal coincides with the hit
point's, though the corner itself need not be at the hit point); and
every mesh object whose cast finds no hit is left unmodified. -/
theorem conform_extreme_gap_zero (scene : Scene) (tq : Vec3 → Quat) (props : ConformProps)
    (fuel : ℕ) (o : Obj) (h : RayHit)
    (hm : o.type = ObjType.MESH)
    (hc : cast_axis_ray scene o (dirMap props.ray_direction) props.ray_max fuel
            = some (some h))
    (hn : dot h.normal h.normal = 1) :
    (∃ o', conformStep scene tq props fuel o = some (o', none)
        ∧ worldExtremeGap o' h.loc h.normal = 0)
    ∧ (∀ o2 : Obj, o2.type = ObjType.MESH →
        cast_axis_ray scene o2 (dirMap props.ray_direction) props.ray_max fuel = some none →
        conformStep scene tq props fuel o2 = some (o2, some (noHitMessage o2))) := by
  refine ⟨?_, fun o2 hm2 hc2 => conformStep_noHit scene tq props fuel o2 hm2 hc2⟩
  refine ⟨{ alignObj tq props o h.normal with
              location := h.loc
                - extreme_offset (alignObj tq props o h.normal) h.normal • h.normal },
    conformStep_hit scene tq props fuel o h hm hc, ?_⟩
  rw [worldExtremeGap_eq]
  have hofs : extreme_offset
      { alignObj tq props o h.normal with
          location := h.loc
            - extreme_offset (alignObj tq props o h.normal) h.normal • h.normal } h.normal
      = extreme_offset (alignObj tq props o h.normal) h.normal := by
    rw [extreme_offset_eq, extreme_offset_eq]
  rw [hofs]
  have hn' : h.normal.x * h.normal.x + h.normal.y * h.normal.y + h.normal.z * h.normal.z
      = 1 := hn
  simp only [dot, Vec3.sub_x, Vec3.sub_y, Vec3.sub_z, Vec3.smul_x, Vec3.smul_y, Vec3.smul_z]
  linear_combination (-(extreme_offset (alignObj tq props o h.normal) h.normal)) * hn'

/-- Witness for the amended C2 at the spec's example: the conformed
cube's extreme gap relative to the hit point (0,0,0) along (0,0,1) is
zero. -/
theorem conform_extreme_gap_zero_witness :
    stepGap floorHit.loc floorHit.normal (conformStep flatScene tq0 props1000 3 demoCube)
      = some 0 := by
  obtain ⟨o', ho, hg⟩ :=
    (conform_extreme_gap_zero flatScene tq0 props1000 3 demoCube floorHit rfl rfl
      (by norm_num [dot, floorHit])).1
  rw [ho]
  show some (worldExtremeGap o' floorHit.loc floorHit.normal) = some 0
  rw [hg]

/-- C9 counterexample: an object resting with its (degenerate) bounding
corner exactly at the hit point of a surface tilted relative to the cast
axis.  Re-invoking conform moves it: the new location (12/25, 0, 16/25)
differs from the resting location (0, 0, 1) — the object slides
tangentially along the slope, so conform is not idempotent as claimed. -/
theorem conform_not_idempotent_on_slope :
    cornerAtHit restObj slopeHit.loc
    ∧ dot slopeNormal slopeNormal = 1
    ∧ stepLocation (conformStep slopeScene tq0 props10 3 restObj)
        = some (Vec3.mk (12/25) 0 (16/25))
    ∧ Vec3.mk (12/25) 0 (16/25) ≠ restObj.location := by
  refine ⟨⟨0, ?_⟩, by norm_num [dot, slopeNormal], ?_, ?_⟩
  · apply Vec3.ext <;>
      norm_num [worldPt, restObj, degBox, qId, one1, quatMat, scaleVec, Mat3.mulVec,
        dot, slopeHit]
  · rw [conformStep_hit slopeScene tq0 props10 3 restObj slopeHit rfl rfl]
    show some _ = _
    norm_num [alignObj, props10, slopeHit, slopeNormal, extreme_offset, min8, worldPt,
      dot, restObj, degBox, qId, one1, quatMat, scaleVec, Mat3.mulVec, min_def,
      Vec3.ext_iff]
  · norm_num [restObj, Vec3.ext_iff]

/-- C9 amended: conform is idempotent on a resting object when the hit
normal is antiparallel to the cast direction (the struck surface is
perpendicular to the probe axis, e.g. a flat floor under a downward
probe).  Hypotheses: the probe hits (same normal as before), the hit lies
on the probe line through the object's origin, the object is resting
(extreme-corner projection onto the normal equals the hit point's), and —
when alignment is requested — its rotation is already the alignment of
that normal.  Then the second invocation leaves the object's entire
state, position and rotation included, unchanged.  On a surface tilted
relative to the cast axis, idempotence fails (see the counterexample). -/
theorem conform_idempotent_resting_antiparallel (scene : Scene) (tq : Vec3 → Quat)
    (props : ConformProps) (fuel : ℕ) (o : Obj) (h : RayHit) (t : ℚ)
    (hm : o.type = ObjType.MESH)
    (hc : cast_axis_ray scene o (dirMap props.ray_direction) props.ray_max fuel
            = some (some h))
    (hn : dot h.normal h.normal = 1)
    (hdir : dirMap props.ray_direction = (-1 : ℚ) • h.normal)
    (hray : h.loc = o.location + t • dirMap props.ray_direction)
    (hrest : dot (h.loc - o.location) h.normal = extreme_offset o h.normal)
    (halign : props.align_rotation = true →
        o.rotation_mode = RotMode.QUATERNION ∧ o.rotation_quaternion = tq h.normal) :
    conformStep scene tq props fuel o = some (o, none) := by
  have hA : alignObj tq props o h.normal = o := by
    by_cases hb : props.align_rotation
    · obtain ⟨h1, h2⟩ := halign hb
      cases o with
      | mk id name type location scale rm rq bb =>
          simp only at h1 h2
          simp [alignObj, hb, h1, h2]
    · simp [alignObj, hb]
  have hn' : h.normal.x * h.normal.x + h.normal.y * h.normal.y + h.normal.z * h.normal.z
      = 1 := hn
  have hofs : extreme_offset o h.normal = -t := by
    rw [← hrest, hray, hdir]
    simp only [dot, Vec3.add_x, Vec3.add_y, Vec3.add_z, Vec3.sub_x, Vec3.sub_y, Vec3.sub_z,
      Vec3.smul_x, Vec3.smul_y, Vec3.smul_z]
    linear_combination (-t) * hn'
  have hloc : h.loc - extreme_offset o h.normal • h.normal = o.location := by
    rw [hofs, hray, hdir]
    apply Vec3.ext <;> simp
  rw [conformStep_hit scene tq props fuel o h hm hc, hA, hloc]

/-- Witness for the amended C9: a unit cube resting on the flat floor
under a downward probe is left exactly in place by a further conform. -/
theorem conform_idempotent_resting_antiparallel_witness :
    conformStep flatScene tq0 props1000 3 restCube = some (restCube, none) := by
  apply conform_idempotent_resting_antiparallel flatScene tq0 props1000 3 restCube
    floorHit (1/2)
  · rfl
  · rfl
  · norm_num [dot, floorHit]
  · apply Vec3.ext <;> norm_num [dirMap, props1000, floorHit]
  · apply Vec3.ext <;> norm_num [floorHit, restCube, dirMap, props1000]
  · norm_num [floorHit, restCube, extreme_offset, min8, worldPt, dot, cubeCorner, qId,
      one1, quatMat, scaleVec, Mat3.mulVec, min_def]
  · intro hb
    exact absurd hb (by simp [props1000])

/-- C10: whenever rotation alignment is requested and the cast hit, the
conform operation also rewrites the object's rotation representation
mode, unconditionally setting it to quaternion mode, and writes the
aligned quaternion — a persistent state change beyond position and
rotation value, applied whatever mode the object used before. -/
theorem conform_sets_quaternion_mode (scene : Scene) (tq : Vec3 → Quat)
    (props : ConformProps) (fuel : ℕ) (o : Obj) (h : RayHit)
    (hm : o.type = ObjType.MESH)
    (hc : cast_axis_ray scene o (dirMap props.ray_direction) props.ray_max fuel
            = some (some h))
    (ha : props.align_rotation = true) :
    ∃ o', conformStep scene tq props fuel o = some (o', none)
      ∧ o'.rotation_mode = RotMode.QUATERNION
      ∧ o'.rotation_quaternion = tq h.normal := by
  refine ⟨_, conformStep_hit scene tq props fuel o h hm hc, ?_, ?_⟩ <;>
    simp [alignObj, ha]

/-- Witness for C10: the demo cube previously used Euler XYZ mode; after
an aligned conform its mode is quaternion. -/
theorem conform_sets_quaternion_mode_witness :
    demoCube.rotation_mode = RotMode.XYZ
    ∧ stepRotMode (conformStep flatScene tq0 propsAlign 3 demoCube)
        = some RotMode.QUATERNION := by
  obtain ⟨o', ho, hmode, -⟩ :=
    conform_sets_quaternion_mode flatScene tq0 propsAlign 3 demoCube floorHit rfl rfl rfl
  refine ⟨rfl, ?_⟩
  rw [ho]
  show some o'.rotation_mode = some RotMode.QUATERNION
  rw [hmode]
